import Mathlib

/-
Verification of the recipe-discovery subsystem of the Smart Grocery Assistant
(app.py and src/model_training/model_trainer.py), shallowly embedded in Lean.

Strings are modelled by Lean String; Python str.strip / str.lower /
str.replace / sorted are embedded as executable functions over the
underlying character list, matching Python semantics on the inputs the
program handles (code-point comparison, ASCII case folding, whitespace
trimming). Wall-clock instants are modelled as integers in an abstract
time unit; datetime subtraction and timedelta comparison become integer
subtraction and comparison.
-/

/-- Python str.strip(): drop whitespace from both ends. -/
def pyStrip (s : String) : String :=
  ⟨((s.data.dropWhile Char.isWhitespace).reverse.dropWhile Char.isWhitespace).reverse⟩

/-- Python str.lower(), ASCII case folding per character. -/
def pyLower (s : String) : String :=
  ⟨s.data.map Char.toLower⟩

/-- Python truthiness fallback `a or dflt` for an optional string:
the default is taken when the value is None or the empty string. -/
def pyOrStr (a : Option String) (dflt : String) : String :=
  match a with
  | none => dflt
  | some s => if s = "" then dflt else s

/-- Code-point lexicographic comparison of character lists, the order
Python sorted() uses on str values. -/
def lexLe : List Char → List Char → Bool
  | [], _ => true
  | _ :: _, [] => false
  | a :: as, b :: bs =>
    if a.toNat < b.toNat then true
    else if b.toNat < a.toNat then false
    else lexLe as bs

theorem lexLe_total : ∀ as bs, lexLe as bs = true ∨ lexLe bs as = true
  | [], _ => .inl rfl
  | _ :: _, [] => .inr rfl
  | a :: as, b :: bs => by
    simp only [lexLe]
    rcases Nat.lt_trichotomy a.toNat b.toNat with h | h | h
    · left; simp [h]
    · simpa [h, Nat.lt_irrefl] using lexLe_total as bs
    · right; simp [h]

theorem lexLe_trans : ∀ as bs cs,
    lexLe as bs = true → lexLe bs cs = true → lexLe as cs = true
  | [], _, _, _, _ => rfl
  | _ :: _, [], _, h1, _ => by simp [lexLe] at h1
  | _ :: _, _ :: _, [], _, h2 => by simp [lexLe] at h2
  | a :: as, b :: bs, c :: cs, h1, h2 => by
    simp only [lexLe] at h1 h2 ⊢
    rcases Nat.lt_trichotomy a.toNat b.toNat with hab | hab | hab
    · rcases Nat.lt_trichotomy b.toNat c.toNat with hbc | hbc | hbc
      · simp [Nat.lt_trans hab hbc]
      · simp [hbc ▸ hab]
      · simp [Nat.lt_asymm hbc, hbc] at h2
    · rcases Nat.lt_trichotomy b.toNat c.toNat with hbc | hbc | hbc
      · simp [hab ▸ hbc]
      · simp [hab, Nat.lt_irrefl] at h1
        simp [hbc, Nat.lt_irrefl] at h2
        simp [hab, hbc, Nat.lt_irrefl]
        exact lexLe_trans as bs cs h1 h2
      · simp [Nat.lt_asymm hbc, hbc] at h2
    · simp [Nat.lt_asymm hab, hab] at h1

theorem lexLe_antisymm : ∀ as bs,
    lexLe as bs = true → lexLe bs as = true → as = bs
  | [], [], _, _ => rfl
  | [], _ :: _, _, h2 => by simp [lexLe] at h2
  | _ :: _, [], h1, _ => by simp [lexLe] at h1
  | a :: as, b :: bs, h1, h2 => by
    simp only [lexLe] at h1 h2
    rcases Nat.lt_trichotomy a.toNat b.toNat with h | h | h
    · simp [Nat.lt_asymm h, h] at h2
    · have ha : a = b := Char.ext (UInt32.toNat.inj h)
      subst ha
      simp [Nat.lt_irrefl] at h1 h2
      exact congrArg (List.cons a) (lexLe_antisymm as bs h1 h2)
    · simp [Nat.lt_asymm h, h] at h1

/-- The order Python sorted() applies to a list of strings. -/
def pyLeRel (a b : String) : Prop := lexLe a.data b.data = true

instance : DecidableRel pyLeRel := fun a b => by
  unfold pyLeRel; infer_instance

instance : IsTotal String pyLeRel :=
  ⟨fun a b => lexLe_total a.data b.data⟩

instance : IsTrans String pyLeRel :=
  ⟨fun a b c => lexLe_trans a.data b.data c.data⟩

instance : IsAntisymm String pyLeRel :=
  ⟨fun a b h1 h2 => by
    cases a; cases b
    exact congrArg String.mk (lexLe_antisymm _ _ h1 h2)⟩

/-- Python sorted() on a list of strings. -/
def pySorted (l : List String) : List String :=
  List.insertionSort pyLeRel l

theorem pySorted_perm_eq {l1 l2 : List String} (h : l1.Perm l2) :
    pySorted l1 = pySorted l2 :=
  List.eq_of_perm_of_sorted
    ((List.perm_insertionSort pyLeRel l1).trans
      (h.trans (List.perm_insertionSort pyLeRel l2).symm))
    (List.sorted_insertionSort pyLeRel l1)
    (List.sorted_insertionSort pyLeRel l2)

/-- app.py CACHE_TTL_DAYS = 3. -/
def CACHE_TTL_DAYS : Int := 3

/-- app.py _is_fresh: the ISO timestamp string is abstracted to the instant
ts it parses to, the hidden utcnow() call is made an explicit argument now,
and the timedelta comparison becomes integer comparison in a common time
unit: fresh iff now - ts is at most the ttl. -/
def _is_fresh (ts now ttl : Int) : Bool :=
  decide (now - ts ≤ ttl)

/-- app.py _cache_key: joins the sorted, stripped, lower-cased non-empty
ingredient names with commas, appends the lower-cased diet (with the
"none" fallback for an absent or empty diet) and the result count
(with 10 substituted for a zero count, from `int(number or 10)`). -/
def _cache_key (ingredients : List String) (diet : Option String) (number : Int) : String :=
  let norm := pyStrip (String.intercalate ","
    (pySorted ((ingredients.filter (fun x => x != "")).map (fun x => pyLower (pyStrip x)))))
  let d := pyLower (pyOrStr diet "none")
  norm ++ "|" ++ d ++ "|" ++ toString (if number = 0 then 10 else number)

/-- Claim C8: freshness is a pure function of (timestamp, now, TTL) with an
inclusive boundary: an entry stamped now is fresh, an entry stamped exactly
TTL ago is fresh, and an entry stamped TTL plus one time unit ago is not
fresh. -/
theorem is_fresh_boundary (now ttl : Int) (h : 0 ≤ ttl) :
    _is_fresh now now ttl = true ∧
    _is_fresh (now - ttl) now ttl = true ∧
    _is_fresh (now - ttl - 1) now ttl = false := by
  refine ⟨?_, ?_, ?_⟩ <;> simp [_is_fresh] <;> omega

/-- Claim C8 witness at now = 0 and the configured TTL of 3 days. -/
theorem is_fresh_boundary_witness :
    (0 : Int) ≤ CACHE_TTL_DAYS ∧
      (_is_fresh 0 0 CACHE_TTL_DAYS = true ∧
       _is_fresh (0 - CACHE_TTL_DAYS) 0 CACHE_TTL_DAYS = true ∧
       _is_fresh (0 - CACHE_TTL_DAYS - 1) 0 CACHE_TTL_DAYS = false) :=
  ⟨by decide, is_fresh_boundary 0 CACHE_TTL_DAYS (by decide)⟩

/-- Claim C1 counterexample: the two lists [egg, egg] and [egg] denote the
same set after trimming, lower-casing and deduplicating-by-equality, the
diet and count agree, yet _cache_key returns different keys, because the
code sorts the ingredient names without deduplicating them. -/
theorem cache_key_dup_counterexample :
    ((["egg", "egg"].map (fun x => pyLower (pyStrip x))).dedup =
      (["egg"].map (fun x => pyLower (pyStrip x))).dedup) ∧
    _cache_key ["egg", "egg"] none 10 ≠ _cache_key ["egg"] none 10 := by
  exact ⟨by decide, by decide⟩

/-- Claim C1 (amended): the cache key fingerprint is invariant under
reordering and case changes of the requested ingredient names — whenever
the two requests yield the same multiset (not set: duplicates are kept)
of trimmed lower-cased non-empty names, and their diet filters normalize
to the same lower-cased value (or the sentinel none), and the result
counts agree, _cache_key returns the identical key string. -/
theorem cache_key_perm_case_invariant
    (l1 l2 : List String) (d1 d2 : Option String) (number : Int)
    (hperm : ((l1.filter (fun x => x != "")).map (fun x => pyLower (pyStrip x))).Perm
      ((l2.filter (fun x => x != "")).map (fun x => pyLower (pyStrip x))))
    (hd : pyLower (pyOrStr d1 "none") = pyLower (pyOrStr d2 "none")) :
    _cache_key l1 d1 number = _cache_key l2 d2 number := by
  unfold _cache_key
  rw [pySorted_perm_eq hperm, hd]

/-- Claim C1 witness: key(["Egg","Milk"], "vegan", 10) equals
key(["milk","egg"], "Vegan", 10). -/
theorem cache_key_perm_case_invariant_witness :
    (((["Egg", "Milk"].filter (fun x => x != "")).map (fun x => pyLower (pyStrip x))).Perm
      ((["milk", "egg"].filter (fun x => x != "")).map (fun x => pyLower (pyStrip x))) ∧
     pyLower (pyOrStr (some "vegan") "none") = pyLower (pyOrStr (some "Vegan") "none")) ∧
    _cache_key ["Egg", "Milk"] (some "vegan") 10 =
      _cache_key ["milk", "egg"] (some "Vegan") 10 :=
  ⟨⟨by decide, by decide⟩,
    cache_key_perm_case_invariant ["Egg", "Milk"] ["milk", "egg"]
      (some "vegan") (some "Vegan") 10 (by decide) (by decide)⟩

/-- app.py spoonacular_recipes lines 371-372 and 398-399: the diet_map
lookup. Python diet_map.get((diet or "").lower(), (diet or "")) maps the
three aliases, maps "none" to None, and returns the original (diet or "")
unchanged for any other key; the result is then only sent as the provider
diet parameter when it is truthy (non-None and non-empty). normalize_diet
returns the diet filter actually sent (none = absent parameter). -/
def normalize_diet (diet : Option String) : Option String :=
  let low := pyLower (pyOrStr diet "")
  let dn : Option String :=
    if low = "keto" then some "ketogenic"
    else if low = "gluten-free" then some "gluten free"
    else if low = "paleo" then some "paleolithic"
    else if low = "none" then none
    else some (pyOrStr diet "")
  match dn with
  | none => none
  | some s => if s = "" then none else some s

/-- Claim C6 counterexample: the unrecognized diet name "vegan" is not
mapped to the absent filter; the code passes it through unchanged and
sends it as the diet parameter. -/
theorem normalize_diet_unrecognized_counterexample :
    normalize_diet (some "vegan") = some "vegan" ∧
    normalize_diet (some "vegan") ≠ none := by
  exact ⟨by decide, by decide⟩

/-- Claim C6 (amended): diet-name normalization maps "keto" to
"ketogenic", "gluten-free" to "gluten free" and "paleo" to "paleolithic"
case-insensitively; it maps "none" (any casing), the absent diet and the
empty string to the absent filter; every other diet name is passed
through unchanged (original casing) and sent as the filter. -/
theorem normalize_diet_mapping (s : String) :
    (pyLower s = "keto" → normalize_diet (some s) = some "ketogenic") ∧
    (pyLower s = "gluten-free" → normalize_diet (some s) = some "gluten free") ∧
    (pyLower s = "paleo" → normalize_diet (some s) = some "paleolithic") ∧
    (pyLower s = "none" → normalize_diet (some s) = none) ∧
    (s = "" → normalize_diet (some s) = none) ∧
    normalize_diet none = none ∧
    (s ≠ "" → pyLower s ≠ "keto" → pyLower s ≠ "gluten-free" →
      pyLower s ≠ "paleo" → pyLower s ≠ "none" →
      normalize_diet (some s) = some s) := by
  refine ⟨?_, ?_, ?_, ?_, ?_, by decide, ?_⟩
  · intro h
    by_cases hs : s = ""
    · subst hs; simp [pyLower] at h
    · simp [normalize_diet, pyOrStr, hs, h]
  · intro h
    by_cases hs : s = ""
    · subst hs; simp [pyLower] at h
    · simp [normalize_diet, pyOrStr, hs, h]
  · intro h
    by_cases hs : s = ""
    · subst hs; simp [pyLower] at h
    · simp [normalize_diet, pyOrStr, hs, h]
  · intro h
    by_cases hs : s = ""
    · subst hs; simp [pyLower] at h
    · simp [normalize_diet, pyOrStr, hs, h]
  · intro h
    subst h; decide
  · intro h h1 h2 h3 h4
    simp [normalize_diet, pyOrStr, h, h1, h2, h3, h4]

/-- Claim C6 witness: "Keto" (case change) maps to "ketogenic", "NONE"
maps to the absent filter, and the absent diet stays absent. -/
theorem normalize_diet_mapping_witness :
    normalize_diet (some "Keto") = some "ketogenic" ∧
    normalize_diet (some "NONE") = none := by
  refine ⟨(normalize_diet_mapping "Keto").1 (by decide), ?_⟩
  exact (normalize_diet_mapping "NONE").2.2.2.1 (by decide)

/-- Python startswith for a single pattern. -/
def strStarts (s p : String) : Bool := p.data.isPrefixOf s.data

/-- Python endswith for a single pattern. -/
def strEnds (s p : String) : Bool := p.data.reverse.isPrefixOf s.data.reverse

/-- app.py _build_img_from_id: construct the Spoonacular CDN URL when the
recipe id parses as an integer and the image type is truthy; otherwise
absent. rid is abstracted to the integer it parses to (none for an absent
or unparseable id, where int(rid) raises and the except returns None). -/
def _build_img_from_id (rid : Option Int) (image_type : Option String) : Option String :=
  match rid with
  | none => none
  | some i =>
    match image_type with
    | none => none
    | some t =>
      if t = "" then none
      else some ("https://img.spoonacular.com/recipes/" ++ toString i ++ "-556x370." ++ t)

/-- app.py _fix_image_url: a non-blank string value is stripped, then an
absolute http/https/data URL passes through, a slash-free name ending in
.jpg/.jpeg/.png is prefixed with the CDN base; in every other case the
function falls back to _build_img_from_id and otherwise returns None.
val = none covers both a Python None and a non-string value. -/
def _fix_image_url (val : Option String) (rid : Option Int) (image_type : Option String) : Option String :=
  let fromVal : Option String :=
    match val with
    | none => none
    | some v0 =>
      if pyStrip v0 = "" then none
      else
        let v := pyStrip v0
        if (strStarts v "http://" || strStarts v "https://" || strStarts v "data:") then some v
        else if (strEnds v ".jpg" || strEnds v ".jpeg" || strEnds v ".png") && !(v.data.contains '/') then
          some ("https://img.spoonacular.com/recipes/" ++ v)
        else none
  match fromVal with
  | some u => some u
  | none => _build_img_from_id rid image_type

/-- Claim C7 counterexample: "abc.gif" is a bare filename (no path
separator, not an absolute URL), yet with no id and no image type the
result is absent rather than the CDN-prefixed URL, because the filename
branch of the code only accepts the .jpg/.jpeg/.png suffixes. -/
theorem fix_image_url_gif_counterexample :
    ("abc.gif").data.contains '/' = false ∧
    (strStarts "abc.gif" "http://" || strStarts "abc.gif" "https://" ||
      strStarts "abc.gif" "data:") = false ∧
    _fix_image_url (some "abc.gif") none none = none := by
  exact ⟨by decide, by decide, by decide⟩

/-- Claim C7 (amended): image URL resolution — an absolute http/https/data
URL passes through unchanged; a bare filename with no path separator that
ends in .jpg, .jpeg or .png is prefixed with the fixed CDN base path;
otherwise, when both recipe id and a non-empty image type are known, the
URL cdn-base/id-556x370.type is synthesized; otherwise the result is
absent. -/
theorem fix_image_url_resolution :
    (∀ (v : String) (rid : Option Int) (it : Option String),
      pyStrip v = v → v ≠ "" →
      (strStarts v "http://" || strStarts v "https://" || strStarts v "data:") = true →
      _fix_image_url (some v) rid it = some v) ∧
    (∀ (v : String) (rid : Option Int) (it : Option String),
      pyStrip v = v → v ≠ "" →
      (strStarts v "http://" || strStarts v "https://" || strStarts v "data:") = false →
      (strEnds v ".jpg" || strEnds v ".jpeg" || strEnds v ".png") = true →
      v.data.contains '/' = false →
      _fix_image_url (some v) rid it =
        some ("https://img.spoonacular.com/recipes/" ++ v)) ∧
    (∀ (i : Int) (t : String), t ≠ "" →
      _fix_image_url none (some i) (some t) =
        some ("https://img.spoonacular.com/recipes/" ++ toString i ++ "-556x370." ++ t)) ∧
    (∀ (rid : Option Int) (it : Option String),
      rid = none ∨ it = none ∨ it = some "" →
      _fix_image_url none rid it = none) := by
  refine ⟨?_, ?_, ?_, ?_⟩
  · intro v rid it hs hne habs
    simp [_fix_image_url, hs, hne, habs]
  · intro v rid it hs hne habs hext hslash
    have hmem : ¬ ('/' ∈ v.data) := by simpa using hslash
    simp [_fix_image_url, hs, hne, habs, hext, hmem]
  · intro i t ht
    simp [_fix_image_url, _build_img_from_id, ht]
  · intro rid it h
    rcases h with h | h | h
    · subst h; cases it <;> simp [_fix_image_url, _build_img_from_id]
    · subst h; cases rid <;> simp [_fix_image_url, _build_img_from_id]
    · subst h; cases rid <;> simp [_fix_image_url, _build_img_from_id]

/-- Claim C7 witness: an absolute URL passes through; "abc.jpg" resolves
to the CDN-prefixed URL; id 123 with type "jpg" and no image value
resolves to the synthesized CDN URL; everything absent resolves to
absent. -/
theorem fix_image_url_resolution_witness :
    _fix_image_url (some "https://a.b/c.jpg") none none = some "https://a.b/c.jpg" ∧
    _fix_image_url (some "abc.jpg") none none =
      some ("https://img.spoonacular.com/recipes/" ++ "abc.jpg") ∧
    _fix_image_url none (some 123) (some "jpg") =
      some ("https://img.spoonacular.com/recipes/" ++ toString (123 : Int) ++ "-556x370." ++ "jpg") ∧
    _fix_image_url none none none = none := by
  refine ⟨?_, ?_, ?_, ?_⟩
  · exact fix_image_url_resolution.1 "https://a.b/c.jpg" none none (by decide) (by decide) (by decide)
  · exact fix_image_url_resolution.2.1 "abc.jpg" none none (by decide) (by decide) (by decide)
      (by decide) (by decide)
  · exact fix_image_url_resolution.2.2.1 123 "jpg" (by decide)
  · exact fix_image_url_resolution.2.2.2 none none (.inl rfl)

/-- One outcome of an outbound network request in call_spoonacular: a
raised network/timeout exception, or a response with the given HTTP
status. -/
inductive Outcome where
  | exc
  | resp (status : Int)
deriving DecidableEq

/-- The statuses 401, 402, 429 that app.py treats as rotate-key signals. -/
def rotateStatus (s : Int) : Bool := s = 401 || s = 402 || s = 429

/-- An attempt outcome that makes the loop rotate and continue: an
exception or a rotate-signal status. -/
def attemptFails : Outcome → Bool
  | .exc => true
  | .resp s => rotateStatus s

/-- Observable result of call_spoonacular: the status of the returned
response (none models the Python None when every key fails), the final
key_index, and the number of network requests actually issued. -/
structure CallTrace where
  response : Option Int
  final_index : Nat
  attempts : Nat
deriving DecidableEq

/-- app.py current_key: the empty pool yields "", otherwise the key at
the current index, stripped. -/
def current_key (keys : List String) (idx : Nat) : String :=
  if keys = [] then "" else pyStrip (keys.getD idx "")

/-- The body of the `for _ in range(n)` loop of app.py call_spoonacular,
recursing on the remaining iterations; idx is the session key_index and
t counts the network requests issued so far, indexing the outcome
sequence. An empty current key rotates without issuing a request; an
exception or a rotate-signal status rotates and continues; any other
response is returned at once. -/
def callLoop (keys : List String) (n : Nat) (outcomes : Nat → Outcome) :
    Nat → Nat → Nat → CallTrace
  | 0, idx, t => ⟨none, idx, t⟩
  | fuel + 1, idx, t =>
    if current_key keys idx = "" then
      callLoop keys n outcomes fuel ((idx + 1) % n) t
    else
      match outcomes t with
      | .exc => callLoop keys n outcomes fuel ((idx + 1) % n) (t + 1)
      | .resp s =>
        if rotateStatus s then callLoop keys n outcomes fuel ((idx + 1) % n) (t + 1)
        else ⟨some s, idx, t + 1⟩

/-- app.py call_spoonacular: run at most n = max(1, len(KEYS)) loop
iterations starting from the current key index. -/
def call_spoonacular (keys : List String) (outcomes : Nat → Outcome) (idx0 : Nat) : CallTrace :=
  callLoop keys (max 1 keys.length) outcomes (max 1 keys.length) idx0 0

theorem callLoop_succ_blank (keys : List String) (n : Nat) (outcomes : Nat → Outcome)
    (fuel idx t : Nat) (hk : current_key keys idx = "") :
    callLoop keys n outcomes (fuel + 1) idx t =
      callLoop keys n outcomes fuel ((idx + 1) % n) t := by
  simp only [callLoop, if_pos hk]

theorem callLoop_succ_fail (keys : List String) (n : Nat) (outcomes : Nat → Outcome)
    (fuel idx t : Nat) (hk : current_key keys idx ≠ "")
    (hfails : attemptFails (outcomes t) = true) :
    callLoop keys n outcomes (fuel + 1) idx t =
      callLoop keys n outcomes fuel ((idx + 1) % n) (t + 1) := by
  simp only [callLoop, if_neg hk]
  cases houtcome : outcomes t with
  | exc => rfl
  | resp s =>
    have hrot : rotateStatus s = true := by
      simpa [houtcome, attemptFails] using hfails
    show (if rotateStatus s = true then
        callLoop keys n outcomes fuel ((idx + 1) % n) (t + 1)
      else ⟨some s, idx, t + 1⟩) =
      callLoop keys n outcomes fuel ((idx + 1) % n) (t + 1)
    exact if_pos hrot

theorem callLoop_succ_return (keys : List String) (n : Nat) (outcomes : Nat → Outcome)
    (fuel idx t : Nat) (s : Int) (hk : current_key keys idx ≠ "")
    (hres : outcomes t = .resp s) (hnorot : rotateStatus s = false) :
    callLoop keys n outcomes (fuel + 1) idx t = ⟨some s, idx, t + 1⟩ := by
  simp only [callLoop, if_neg hk, hres]
  show (if rotateStatus s = true then
      callLoop keys n outcomes fuel ((idx + 1) % n) (t + 1)
    else ⟨some s, idx, t + 1⟩) = ⟨some s, idx, t + 1⟩
  rw [if_neg (by simp [hnorot])]

theorem callLoop_attempts_le (keys : List String) (n : Nat) (outcomes : Nat → Outcome) :
    ∀ fuel idx t, (callLoop keys n outcomes fuel idx t).attempts ≤ t + fuel := by
  intro fuel
  induction fuel with
  | zero => intro idx t; simp [callLoop]
  | succ f ih =>
    intro idx t
    by_cases hk : current_key keys idx = ""
    · rw [callLoop_succ_blank keys n outcomes f idx t hk]
      exact le_trans (ih _ t) (by omega)
    · by_cases hfails : attemptFails (outcomes t) = true
      · rw [callLoop_succ_fail keys n outcomes f idx t hk hfails]
        exact le_trans (ih _ (t + 1)) (by omega)
      · cases houtcome : outcomes t with
        | exc => simp [houtcome, attemptFails] at hfails
        | resp s =>
          have hnorot : rotateStatus s = false := by
            rw [houtcome] at hfails
            simpa [attemptFails] using hfails
          rw [callLoop_succ_return keys n outcomes f idx t s hk houtcome hnorot]
          show t + 1 ≤ t + (f + 1)
          omega

theorem current_key_nonblank (keys : List String) (idx : Nat)
    (hkeys : ∀ k ∈ keys, pyStrip k ≠ "") (hne : keys ≠ []) (hidx : idx < keys.length) :
    current_key keys idx ≠ "" := by
  simp only [current_key, if_neg hne]
  rw [List.getD_eq_getElem keys "" hidx]
  exact hkeys _ (List.getElem_mem hidx)

theorem callLoop_all_fail (keys : List String) (outcomes : Nat → Outcome)
    (hkeys : ∀ k ∈ keys, pyStrip k ≠ "") (hne : keys ≠ []) :
    ∀ fuel idx t, idx < keys.length →
      (∀ j, j < fuel → attemptFails (outcomes (t + j)) = true) →
      callLoop keys keys.length outcomes fuel idx t =
        ⟨none, (idx + fuel) % keys.length, t + fuel⟩ := by
  intro fuel
  induction fuel with
  | zero =>
    intro idx t hidx _
    simp [callLoop, Nat.mod_eq_of_lt hidx]
  | succ f ih =>
    intro idx t hidx hfail
    have hk := current_key_nonblank keys idx hkeys hne hidx
    have hlt : (idx + 1) % keys.length < keys.length :=
      Nat.mod_lt _ (List.length_pos.mpr hne)
    have h0 : attemptFails (outcomes t) = true := by
      simpa using hfail 0 (Nat.succ_pos f)
    have hshift : ∀ j, j < f → attemptFails (outcomes (t + 1 + j)) = true := by
      intro j hj
      have := hfail (j + 1) (by omega)
      simpa [show t + (j + 1) = t + 1 + j from by omega] using this
    rw [callLoop_succ_fail keys keys.length outcomes f idx t hk h0,
      ih _ (t + 1) hlt hshift]
    have hmod : ((idx + 1) % keys.length + f) % keys.length =
        (idx + (f + 1)) % keys.length := by
      rw [Nat.mod_add_mod]
      exact congrArg (· % keys.length) (by omega)
    rw [hmod]
    have : t + 1 + f = t + (f + 1) := by omega
    rw [this]

theorem callLoop_first_return (keys : List String) (outcomes : Nat → Outcome)
    (hkeys : ∀ k ∈ keys, pyStrip k ≠ "") (hne : keys ≠ []) :
    ∀ f fuel idx t s, idx < keys.length → f < fuel →
      (∀ j, j < f → attemptFails (outcomes (t + j)) = true) →
      outcomes (t + f) = .resp s → rotateStatus s = false →
      callLoop keys keys.length outcomes fuel idx t =
        ⟨some s, (idx + f) % keys.length, t + f + 1⟩ := by
  intro f
  induction f with
  | zero =>
    intro fuel idx t s hidx hf _ hres hnorot
    cases fuel with
    | zero => omega
    | succ fuel =>
      have hk := current_key_nonblank keys idx hkeys hne hidx
      rw [callLoop_succ_return keys keys.length outcomes fuel idx t s hk
        (by simpa using hres) hnorot]
      simp [Nat.mod_eq_of_lt hidx]
  | succ f ih =>
    intro fuel idx t s hidx hf hfail hres hnorot
    cases fuel with
    | zero => omega
    | succ fuel =>
      have hk := current_key_nonblank keys idx hkeys hne hidx
      have hlt : (idx + 1) % keys.length < keys.length :=
        Nat.mod_lt _ (List.length_pos.mpr hne)
      have h0 : attemptFails (outcomes t) = true := by
        simpa using hfail 0 (Nat.succ_pos f)
      have hshift : ∀ j, j < f → attemptFails (outcomes (t + 1 + j)) = true := by
        intro j hj
        have := hfail (j + 1) (by omega)
        simpa [show t + (j + 1) = t + 1 + j from by omega] using this
      have hres' : outcomes (t + 1 + f) = .resp s := by
        rw [show t + 1 + f = t + (f + 1) from by omega]
        exact hres
      rw [callLoop_succ_fail keys keys.length outcomes fuel idx t hk h0,
        ih fuel _ (t + 1) s hlt (by omega) hshift hres' hnorot]
      have hmod : ((idx + 1) % keys.length + f) % keys.length =
          (idx + (f + 1)) % keys.length := by
        rw [Nat.mod_add_mod]
        exact congrArg (· % keys.length) (by omega)
      rw [hmod]
      have : t + 1 + f + 1 = t + (f + 1) + 1 := by omega
      rw [this]

/-- Claim C2: for a pool of n >= 1 non-blank keys and any sequence of
per-attempt outcomes, call_spoonacular makes at most n attempts; if all n
attempts fail (rotate-signal status in 401/402/429 or network exception)
it returns the None sentinel with the index advanced by exactly n mod n,
i.e. back at its starting value; and on the first attempt whose status is
outside that set it returns that response with the index left at the slot
of the key that succeeded, having issued exactly f+1 requests. -/
theorem call_spoonacular_rotation
    (keys : List String) (outcomes : Nat → Outcome) (idx0 : Nat)
    (hne : keys ≠ []) (hkeys : ∀ k ∈ keys, pyStrip k ≠ "") (hidx : idx0 < keys.length) :
    (call_spoonacular keys outcomes idx0).attempts ≤ keys.length ∧
    ((∀ j, j < keys.length → attemptFails (outcomes j) = true) →
      call_spoonacular keys outcomes idx0 = ⟨none, idx0, keys.length⟩) ∧
    (∀ f s, f < keys.length →
      (∀ j, j < f → attemptFails (outcomes j) = true) →
      outcomes f = .resp s → rotateStatus s = false →
      call_spoonacular keys outcomes idx0 = ⟨some s, (idx0 + f) % keys.length, f + 1⟩) := by
  have hmax : max 1 keys.length = keys.length :=
    Nat.max_eq_right (Nat.one_le_iff_ne_zero.mpr (by
      simpa [List.length_eq_zero] using hne))
  refine ⟨?_, ?_, ?_⟩
  · have := callLoop_attempts_le keys (max 1 keys.length) outcomes (max 1 keys.length) idx0 0
    simpa [call_spoonacular, hmax] using this
  · intro hfail
    have := callLoop_all_fail keys outcomes hkeys hne keys.length idx0 0 hidx
      (by intro j hj; simpa using hfail j hj)
    simp only [call_spoonacular, hmax]
    rw [this]
    have hmod : (idx0 + keys.length) % keys.length = idx0 := by
      rw [Nat.add_mod_right]
      exact Nat.mod_eq_of_lt hidx
    rw [hmod]
    simp
  · intro f s hf hfail hres hnorot
    have := callLoop_first_return keys outcomes hkeys hne f keys.length idx0 0 s hidx hf
      (by intro j hj; simpa using hfail j hj) (by simpa using hres) hnorot
    simp only [call_spoonacular, hmax]
    rw [this]
    simp

/-- Claim C2 witness: a pool of 3 keys where attempts 1 and 2 return 429
and attempt 3 returns 200 ends with the index at slot 2 (the key that
succeeded), having made 3 attempts; the same pool with every attempt
returning 429 yields the None sentinel with the index back at its start
after 3 attempts. -/
theorem call_spoonacular_rotation_witness :
    call_spoonacular ["k1", "k2", "k3"]
        (fun t => if t < 2 then .resp 429 else .resp 200) 0 =
      ⟨some 200, 2, 3⟩ ∧
    call_spoonacular ["k1", "k2", "k3"] (fun _ => .resp 429) 0 = ⟨none, 0, 3⟩ := by
  constructor
  · have h := (call_spoonacular_rotation ["k1", "k2", "k3"]
      (fun t => if t < 2 then .resp 429 else .resp 200) 0
      (by decide) (by decide) (by decide)).2.2 2 200 (by decide)
      (by decide) (by decide) (by decide)
    simpa using h
  · have h := (call_spoonacular_rotation ["k1", "k2", "k3"]
      (fun _ => .resp 429) 0
      (by decide) (by decide) (by decide)).2.1 (by decide)
    simpa using h

/-- Claim C10: with an empty credential pool call_spoonacular issues no
network request at all, returns the None sentinel whatever the network
would have answered, and leaves the pool index at 0. -/
theorem call_spoonacular_empty_pool (outcomes : Nat → Outcome) (idx0 : Nat) :
    call_spoonacular [] outcomes idx0 = ⟨none, 0, 0⟩ := by
  simp [call_spoonacular, callLoop, current_key, Nat.mod_one]

/-- One row of the persisted recipes_index.csv lookup table of
model_trainer.py: recipe_id, title, ingredients text and the optional
diet_tag (none models a missing value, whose .str.lower() comparison is
False in pandas). -/
structure CatalogRow where
  recipe_id : Int
  title : String
  ingredients : String
  diet_tag : Option String
deriving DecidableEq

/-- A catalog row together with the score column assigned by
recommend_from_pantry. The TF-IDF similarity values are real numbers;
the claims settled here depend only on which rows appear and on the
literal 0.0 score, so the rationals are an exact carrier. -/
structure ScoredRow where
  row : CatalogRow
  score : ℚ
deriving DecidableEq

/-- Presence on disk of the three persisted artifacts VECT_PATH,
MATRIX_PATH and RECIPES_MAP checked by recommend_from_pantry. -/
structure Artifacts where
  vect_exists : Bool
  matrix_exists : Bool
  recmap_exists : Bool
deriving DecidableEq

/-- The loaded trained index: the lookup-table rows in stored order,
whether the table has a diet_tag column, and the row of similarity
scores linear_kernel(vec.transform([q]), mat).ravel() as a function of
the joined pantry query string (one score per catalog row; the TF-IDF
numerics themselves, which no claim here depends on, stay abstract). -/
structure TrainedModel where
  rec_map : List CatalogRow
  has_diet_col : Bool
  sims : String → List ℚ

/-- model_trainer.py line 55: str(i).lower().strip().replace(" ", "_");
the single-character replace is a per-character map. -/
def pantry_token (i : String) : String :=
  ⟨(pyStrip (pyLower i)).data.map (fun c => if c = ' ' then '_' else c)⟩

/-- model_trainer.py line 55: the space-joined tokens of the pantry items
whose raw text strips to something non-empty. -/
def pantry_query (pantry_items : List String) : String :=
  String.intercalate " " ((pantry_items.filter (fun i => pyStrip i != "")).map pantry_token)

/-- Descending-score order used for sort_values("score", ascending=False). -/
def byScoreDesc (a b : ScoredRow) : Prop := b.score ≤ a.score

instance : DecidableRel byScoreDesc := fun a b => by
  unfold byScoreDesc; infer_instance

/-- model_trainer.py recommend_from_pantry: raises RuntimeError("Model
not trained...") unless all three artifacts exist; an empty normalized
pantry query returns rec_map.head(top_k) with score 0.0; otherwise the
rows are scored by similarity, filtered to the rows whose diet_tag
matches the truthy diet case-insensitively (when the column exists),
sorted by descending score and truncated to top_k. The sort is modelled
by insertion sort; pandas guarantees only some descending-score order,
and no claim here depends on tie placement. -/
def recommend_from_pantry (fs : Artifacts) (m : TrainedModel)
    (pantry_items : List String) (top_k : Nat) (diet : Option String) :
    Except String (List ScoredRow) :=
  if !(fs.vect_exists && fs.matrix_exists && fs.recmap_exists) then
    .error "Model not trained. Run train_recipe_model(...) first."
  else
    let q := pantry_query pantry_items
    if q = "" then
      .ok ((m.rec_map.take top_k).map (fun r => ⟨r, 0⟩))
    else
      let scored := List.zipWith (fun r s => ScoredRow.mk r s) m.rec_map (m.sims q)
      let filtered :=
        match diet with
        | none => scored
        | some d =>
          if d != "" && m.has_diet_col then
            scored.filter (fun x =>
              match x.row.diet_tag with
              | some t => pyLower t == pyLower d
              | none => false)
          else scored
      .ok ((List.insertionSort byScoreDesc filtered).take top_k)

theorem pantry_query_of_blank (pantry_items : List String)
    (hblank : ∀ i ∈ pantry_items, pyStrip i = "") :
    pantry_query pantry_items = "" := by
  have hfilter : pantry_items.filter (fun i => pyStrip i != "") = [] := by
    rw [List.filter_eq_nil_iff]
    intro a ha
    simp [hblank a ha]
  simp [pantry_query, hfilter, String.intercalate]

theorem recommend_of_query_empty (fs : Artifacts) (m : TrainedModel)
    (pantry_items : List String) (top_k : Nat) (diet : Option String)
    (hfs : fs.vect_exists = true ∧ fs.matrix_exists = true ∧ fs.recmap_exists = true)
    (hq : pantry_query pantry_items = "") :
    recommend_from_pantry fs m pantry_items top_k diet =
      .ok ((m.rec_map.take top_k).map (fun r => ⟨r, 0⟩)) := by
  obtain ⟨h1, h2, h3⟩ := hfs
  simp [recommend_from_pantry, h1, h2, h3, hq]

/-- Claim C4: recommend_from_pantry returns the distinct "model not
trained" error exactly when at least one of the three persisted
artifacts (vectorizer model, term matrix, lookup table) is absent;
presence of only some artifacts is equivalent to not trained, and with
all three present no such error is raised. -/
theorem recommend_not_trained_iff (fs : Artifacts) (m : TrainedModel)
    (pantry_items : List String) (top_k : Nat) (diet : Option String) :
    recommend_from_pantry fs m pantry_items top_k diet =
        .error "Model not trained. Run train_recipe_model(...) first." ↔
      (fs.vect_exists = false ∨ fs.matrix_exists = false ∨ fs.recmap_exists = false) := by
  cases hv : fs.vect_exists <;> cases hm : fs.matrix_exists <;> cases hr : fs.recmap_exists <;>
    simp [recommend_from_pantry, hv, hm, hr] <;> split <;> simp

/-- Claim C5: for every trained index, every top_k and every diet, a
pantry list whose items all strip to empty strings (including the empty
list) yields the first top_k catalog rows (or all rows if the catalog is
smaller) in stored order, each scored 0, not an error. -/
theorem recommend_blank_pantry (m : TrainedModel) (pantry_items : List String)
    (top_k : Nat) (diet : Option String)
    (hblank : ∀ i ∈ pantry_items, pyStrip i = "") :
    recommend_from_pantry ⟨true, true, true⟩ m pantry_items top_k diet =
      .ok ((m.rec_map.take top_k).map (fun r => ⟨r, 0⟩)) :=
  recommend_of_query_empty ⟨true, true, true⟩ m pantry_items top_k diet
    ⟨rfl, rfl, rfl⟩ (pantry_query_of_blank pantry_items hblank)

/-- A small concrete trained index used by the closed witnesses. -/
def demoModel : TrainedModel :=
  { rec_map := [⟨1, "A", "x", some "Vegan"⟩, ⟨2, "B", "y", none⟩]
    has_diet_col := true
    sims := fun _ => [1, 2] }

/-- Claim C5 witness: a pantry of blank strings against a 2-row catalog
with top_k = 5 returns both rows in stored order, scored 0. -/
theorem recommend_blank_pantry_witness :
    (∀ i ∈ [" ", ""], pyStrip i = "") ∧
    recommend_from_pantry ⟨true, true, true⟩ demoModel [" ", ""] 5 (some "vegan") =
      .ok ((demoModel.rec_map.take 5).map (fun r => ⟨r, 0⟩)) :=
  ⟨by decide, recommend_blank_pantry demoModel [" ", ""] 5 (some "vegan") (by decide)⟩

/-- Claim C9: with an empty pantry list the diet filter is ignored
entirely — recommend_from_pantry returns the first top_k catalog rows
whatever their stored diet tags, for every diet value — whereas a
non-empty query with a truthy diet (and a diet_tag column) excludes
every row whose stored tag does not match case-insensitively. -/
theorem recommend_empty_query_ignores_diet (m : TrainedModel) (top_k : Nat)
    (diet : Option String) :
    recommend_from_pantry ⟨true, true, true⟩ m [] top_k diet =
      .ok ((m.rec_map.take top_k).map (fun r => ⟨r, 0⟩)) ∧
    (∀ (pantry_items : List String) (d : String) (out : List ScoredRow),
      pantry_query pantry_items ≠ "" → diet = some d → d ≠ "" →
      m.has_diet_col = true →
      recommend_from_pantry ⟨true, true, true⟩ m pantry_items top_k diet = .ok out →
      ∀ x ∈ out, ∃ t, x.row.diet_tag = some t ∧ pyLower t = pyLower d) := by
  constructor
  · exact recommend_of_query_empty ⟨true, true, true⟩ m [] top_k diet
      ⟨rfl, rfl, rfl⟩ rfl
  · intro pantry_items d out hq hdiet hd hcol hok x hx
    subst hdiet
    simp only [recommend_from_pantry, Bool.and_self, Bool.not_true,
      Bool.false_eq_true, if_false, if_neg hq] at hok
    rw [if_pos (by simp [hd, hcol])] at hok
    have hout : out = (List.insertionSort byScoreDesc
       ((List.zipWith (fun r s => ScoredRow.mk r s) m.rec_map
          (m.sims (pantry_query pantry_items))).filter (fun x =>
            match x.row.diet_tag with
            | some t => pyLower t == pyLower d
            | none => false))).take top_k := by
      exact (Except.ok.injEq _ _).mp hok.symm
    subst hout
    have hx2 := List.take_subset _ _ hx
    have hx3 := ((List.perm_insertionSort byScoreDesc _).mem_iff).mp hx2
    have hx4 := (List.mem_filter.mp hx3).2
    cases htag : x.row.diet_tag with
    | none => rw [htag] at hx4; simp at hx4
    | some t =>
      rw [htag] at hx4
      simp only [beq_iff_eq] at hx4
      exact ⟨t, rfl, hx4⟩

/-- Claim C9 witness: on the 2-row demo catalog, an empty pantry with
diet "vegan" returns both rows (the second has no vegan tag) scored 0,
while the non-empty query ["x"] with the same diet returns only the
tagged row, whose tag matches case-insensitively. -/
theorem recommend_empty_query_ignores_diet_witness :
    recommend_from_pantry ⟨true, true, true⟩ demoModel [] 5 (some "vegan") =
      .ok ((demoModel.rec_map.take 5).map (fun r => ⟨r, 0⟩)) ∧
    (∃ t, (ScoredRow.mk ⟨1, "A", "x", some "Vegan"⟩ 1).row.diet_tag = some t ∧
      pyLower t = pyLower "vegan") := by
  constructor
  · exact (recommend_empty_query_ignores_diet demoModel 5 (some "vegan")).1
  · exact (recommend_empty_query_ignores_diet demoModel 5 (some "vegan")).2
      ["x"] "vegan" [ScoredRow.mk ⟨1, "A", "x", some "Vegan"⟩ 1]
      (by decide) rfl (by decide) rfl (by rfl)
      (ScoredRow.mk ⟨1, "A", "x", some "Vegan"⟩ 1) (by decide)

/-- A raw recipe record from the provider, restricted to the fields the
normalization in app.py reads (absent keys are none). -/
structure ApiRecord where
  id : Option Int
  title : Option String
  image : Option String
  imageType : Option String
  usedIngredientCount : Option Int
  missedIngredientCount : Option Int
  sourceUrl : Option String
  spoonacularSourceUrl : Option String
  readyInMinutes : Option Int
  servings : Option Int
deriving DecidableEq

/-- A normalized RecipeSummary dict as built by spoonacular_recipes. -/
structure RecipeSummary where
  id : Option Int
  title : Option String
  image : Option String
  usedIngredientCount : Option Int
  missedIngredientCount : Option Int
  sourceUrl : Option String
  readyInMinutes : Option Int
  servings : Option Int
  imageType : Option String
deriving DecidableEq

/-- Python `a or b` on two optional strings: b when a is None or "". -/
def pyOrOpt (a b : Option String) : Option String :=
  match a with
  | none => b
  | some s => if s = "" then b else some s

/-- Python `a or 0` on an optional integer. -/
def pyOrZero (a : Option Int) : Int := a.getD 0

/-- app.py lines 407-420: one complexSearch result normalized. -/
def summary_from_search (rec : ApiRecord) : RecipeSummary :=
  { id := rec.id
    title := rec.title
    image := _fix_image_url rec.image rec.id rec.imageType
    usedIngredientCount := rec.usedIngredientCount
    missedIngredientCount := rec.missedIngredientCount
    sourceUrl := pyOrOpt rec.sourceUrl rec.spoonacularSourceUrl
    readyInMinutes := rec.readyInMinutes
    servings := rec.servings
    imageType := rec.imageType }

/-- app.py lines 441-454: one findByIngredients record normalized. -/
def summary_from_find (rec : ApiRecord) : RecipeSummary :=
  { id := rec.id
    title := rec.title
    image := _fix_image_url rec.image rec.id rec.imageType
    usedIngredientCount := some (pyOrZero rec.usedIngredientCount)
    missedIngredientCount := some (pyOrZero rec.missedIngredientCount)
    sourceUrl := none
    readyInMinutes := none
    servings := none
    imageType := rec.imageType }

/-- One list-cache entry of recipes_cache.json: its creation timestamp
(abstract time unit, as in _is_fresh) and the stored payload. -/
structure CacheEntry where
  ts : Int
  data : List RecipeSummary
deriving DecidableEq

/-- The observable outcome of one network strategy inside
spoonacular_recipes (one call_spoonacular invocation plus response
parsing): the wrapper returned None because every key failed, an
exception escaped inside the try block, or a response arrived with the
given status and parsed record list. -/
inductive NetOutcome where
  | noResponse
  | exc
  | resp (status : Int) (records : List ApiRecord)
deriving DecidableEq

/-- Ambient state read by one spoonacular_recipes call: the offline_mode
flag, the items mapping of the list cache, the current instant, the
demo_recipes.json content (none when the file is absent or unreadable),
and the outcome of each of the two network strategies in order. -/
structure SpoonWorld where
  offline : Bool
  cache : String → Option CacheEntry
  now : Int
  demo_file : Option (List RecipeSummary)
  search_result : NetOutcome
  find_result : NetOutcome

/-- app.py _load_demo_recipes hardcoded fallback sample (dict keys absent
from the literals are none fields). -/
def demo_default : List RecipeSummary :=
  [ { id := some 910001, title := some "Masala Khichdi", image := none,
      usedIngredientCount := some 4, missedIngredientCount := some 0,
      sourceUrl := none, readyInMinutes := some 28, servings := some 2,
      imageType := none },
    { id := some 910002, title := some "Paneer Bhurji Wrap", image := none,
      usedIngredientCount := some 5, missedIngredientCount := some 0,
      sourceUrl := none, readyInMinutes := some 20, servings := some 2,
      imageType := none },
    { id := some 910003, title := some "Garlic Butter Pasta", image := none,
      usedIngredientCount := some 3, missedIngredientCount := some 1,
      sourceUrl := none, readyInMinutes := some 18, servings := some 2,
      imageType := none } ]

/-- app.py _load_demo_recipes: the demo file content when it is a
non-empty list, else the built-in sample. -/
def _load_demo_recipes (demo_file : Option (List RecipeSummary)) : List RecipeSummary :=
  match demo_file with
  | some l => if l = [] then demo_default else l
  | none => demo_default

/-- app.py lines 374-377: the normalized ingredient list (stripped
non-blank entries, with the egg/milk/bread default when empty) and the
cache key computed from it by the online branch of spoonacular_recipes. -/
def list_request_ingredients (include_ingredients : List String) : List String :=
  let ingredients0 := (include_ingredients.filter
    (fun x => !(x = "") && !(pyStrip x = ""))).map pyStrip
  if ingredients0 = [] then ["egg", "milk", "bread"] else ingredients0

def list_request_key (include_ingredients : List String) (diet : Option String)
    (number : Int) : String :=
  _cache_key (list_request_ingredients include_ingredients)
    (some ((normalize_diet diet).getD "none")) number

/-- app.py _save_and_return: store the fresh payload under the key and
return it. -/
def _save_and_return (w : SpoonWorld) (key : String) (data : List RecipeSummary) :
    List RecipeSummary × (String → Option CacheEntry) :=
  (data, fun k => if k = key then some ⟨w.now, data⟩ else w.cache k)

/-- app.py line 462 (and the r-is-None early returns): the stale payload
when an entry exists under the key, else the demo recipes. -/
def stale_or_demo (w : SpoonWorld) (entry : Option CacheEntry) :
    List RecipeSummary × (String → Option CacheEntry) :=
  match entry with
  | some e => (e.data, w.cache)
  | none => (_load_demo_recipes w.demo_file, w.cache)

/-- app.py lines 429-459, attempt 2 (findByIngredients): a 200 response
with a non-empty normalization is cached and returned; a None wrapper
result, an exception, any other status, or an empty normalization falls
to the stale-or-demo fallback. -/
def find_attempt (w : SpoonWorld) (key : String) (entry : Option CacheEntry) :
    List RecipeSummary × (String → Option CacheEntry) :=
  match w.find_result with
  | .resp s records =>
    if s = 200 then
      let out := records.map summary_from_find
      if out = [] then stale_or_demo w entry else _save_and_return w key out
    else stale_or_demo w entry
  | .noResponse => stale_or_demo w entry
  | .exc => stale_or_demo w entry

/-- app.py lines 401-426, attempt 1 (complexSearch): a 200 response with
a non-empty normalization is cached and returned; a None wrapper result
short-circuits to the stale-or-demo fallback; any other status, an
exception, or an empty normalization continues with attempt 2. -/
def search_attempt (w : SpoonWorld) (key : String) (entry : Option CacheEntry) :
    List RecipeSummary × (String → Option CacheEntry) :=
  match w.search_result with
  | .resp s records =>
    if s = 200 then
      let summaries := records.map summary_from_search
      if summaries = [] then find_attempt w key entry
      else _save_and_return w key summaries
    else find_attempt w key entry
  | .noResponse => stale_or_demo w entry
  | .exc => find_attempt w key entry

/-- app.py spoonacular_recipes: offline mode serves a fresh cache entry
or the demo recipes without touching the network; the online branch
serves a fresh cache entry if one exists, otherwise runs attempt 1 then
attempt 2 and finally the stale-or-demo fallback. Returns the produced
list together with the resulting cache mapping (the _save_and_return
side effect made explicit). -/
def spoonacular_recipes (w : SpoonWorld) (include_ingredients : List String)
    (diet : Option String) (number : Int) :
    List RecipeSummary × (String → Option CacheEntry) :=
  if w.offline then
    let ingredients := (include_ingredients.filter
      (fun x => !(x = "") && !(pyStrip x = ""))).map pyStrip
    let diet_norm := pyLower (pyOrStr diet "none")
    let key := _cache_key ingredients (some diet_norm) number
    match w.cache key with
    | some e =>
      if _is_fresh e.ts w.now CACHE_TTL_DAYS then (e.data, w.cache)
      else (_load_demo_recipes w.demo_file, w.cache)
    | none => (_load_demo_recipes w.demo_file, w.cache)
  else
    match w.cache (list_request_key include_ingredients diet number) with
    | some e =>
      if _is_fresh e.ts w.now CACHE_TTL_DAYS then (e.data, w.cache)
      else search_attempt w (list_request_key include_ingredients diet number) (some e)
    | none => search_attempt w (list_request_key include_ingredients diet number) none

/-- A network strategy outcome that yields no usable list: no response,
an exception, a non-200 status, or a 200 with an empty record list. -/
def strategyFails : NetOutcome → Prop
  | .noResponse => True
  | .exc => True
  | .resp s records => s ≠ 200 ∨ records = []

theorem find_attempt_of_fails (w : SpoonWorld) (key : String)
    (entry : Option CacheEntry) (h : strategyFails w.find_result) :
    find_attempt w key entry = stale_or_demo w entry := by
  unfold find_attempt
  cases hr : w.find_result with
  | noResponse => rfl
  | exc => rfl
  | resp s records =>
    rw [hr] at h
    show (if s = 200 then
        (if records.map summary_from_find = [] then stale_or_demo w entry
         else _save_and_return w key (records.map summary_from_find))
      else stale_or_demo w entry) = stale_or_demo w entry
    rcases h with h | h
    · rw [if_neg h]
    · subst h
      by_cases hs : s = 200
      · rw [if_pos hs]
        simp
      · rw [if_neg hs]

theorem search_attempt_of_fails (w : SpoonWorld) (key : String)
    (entry : Option CacheEntry) (h1 : strategyFails w.search_result)
    (h2 : strategyFails w.find_result) :
    search_attempt w key entry = stale_or_demo w entry := by
  unfold search_attempt
  cases hr : w.search_result with
  | noResponse => rfl
  | exc => exact find_attempt_of_fails w key entry h2
  | resp s records =>
    rw [hr] at h1
    show (if s = 200 then
        (if records.map summary_from_search = [] then find_attempt w key entry
         else _save_and_return w key (records.map summary_from_search))
      else find_attempt w key entry) = stale_or_demo w entry
    rcases h1 with h | h
    · rw [if_neg h]
      exact find_attempt_of_fails w key entry h2
    · subst h
      by_cases hs : s = 200
      · rw [if_pos hs]
        simpa using find_attempt_of_fails w key entry h2
      · rw [if_neg hs]
        exact find_attempt_of_fails w key entry h2

/-- Claim C3: with offline mode off, whenever both network strategies
fail or return empty, a stale (non-fresh) cache entry under the computed
key makes spoonacular_recipes return that entry payload, and the Offline
Catalog defaults are returned only when no cache entry exists at all
under the key. -/
theorem spoonacular_recipes_stale_serves (w : SpoonWorld)
    (include_ingredients : List String) (diet : Option String) (number : Int)
    (hoff : w.offline = false)
    (h1 : strategyFails w.search_result)
    (h2 : strategyFails w.find_result) :
    (∀ e, w.cache (list_request_key include_ingredients diet number) = some e →
      _is_fresh e.ts w.now CACHE_TTL_DAYS = false →
      (spoonacular_recipes w include_ingredients diet number).1 = e.data) ∧
    (w.cache (list_request_key include_ingredients diet number) = none →
      (spoonacular_recipes w include_ingredients diet number).1 =
        _load_demo_recipes w.demo_file) := by
  constructor
  · intro e hentry hstale
    unfold spoonacular_recipes
    rw [if_neg (by simp [hoff])]
    rw [hentry]
    show (if _is_fresh e.ts w.now CACHE_TTL_DAYS = true then (e.data, w.cache)
        else search_attempt w (list_request_key include_ingredients diet number)
          (some e)).1 = e.data
    rw [hstale]
    simp only [Bool.false_eq_true, if_false]
    rw [search_attempt_of_fails w _ (some e) h1 h2]
    rfl
  · intro hentry
    unfold spoonacular_recipes
    rw [if_neg (by simp [hoff])]
    rw [hentry]
    show (search_attempt w (list_request_key include_ingredients diet number) none).1 =
      _load_demo_recipes w.demo_file
    rw [search_attempt_of_fails w _ none h1 h2]
    rfl

/-- A concrete stale payload for the C3 witness. -/
def staleSummary : RecipeSummary :=
  { id := some 1, title := some "Stale", image := none,
    usedIngredientCount := none, missedIngredientCount := none,
    sourceUrl := none, readyInMinutes := none, servings := none,
    imageType := none }

/-- Claim C3 witness: a stale entry (stamped 0, now 10, TTL 3) under the
key of the request for ["egg"] is served when attempt 1 returns 402 and
attempt 2 gets no response; with an empty cache the same request falls
back to the demo defaults. -/
theorem spoonacular_recipes_stale_serves_witness :
    (spoonacular_recipes
      { offline := false,
        cache := fun k =>
          if k = list_request_key ["egg"] none 10 then some ⟨0, [staleSummary]⟩ else none,
        now := 10, demo_file := none,
        search_result := .resp 402 [], find_result := .noResponse }
      ["egg"] none 10).1 = [staleSummary] ∧
    (spoonacular_recipes
      { offline := false, cache := fun _ => none,
        now := 10, demo_file := none,
        search_result := .resp 402 [], find_result := .noResponse }
      ["egg"] none 10).1 = _load_demo_recipes none := by
  constructor
  · exact (spoonacular_recipes_stale_serves _ ["egg"] none 10 rfl
      (by simp [strategyFails]) (by simp [strategyFails])).1
      ⟨0, [staleSummary]⟩ (by simp) (by decide)
  · exact (spoonacular_recipes_stale_serves _ ["egg"] none 10 rfl
      (by simp [strategyFails]) (by simp [strategyFails])).2 rfl
